import Mathlib

/-!
Verification of the Compliance Reconciliation Engine of this repository.

The Python source is shallowly embedded: Python strings become `String`,
Python `needle in hay` substring tests become `strHas`, `str.lower()` /
`str.upper()` become character-wise `Char.toLower` / `Char.toUpper` maps,
`re` searches for the concrete patterns used by the source are embedded as
explicit scanning functions over character lists, and the fallible
`int(float(...))` quantity parse becomes an `Option Int` parser, with
`none` modelling a raised `ValueError`.

Sources embedded (file / function):
- `utils.py` `Utils.validate_part_number` (and the identical `_utils.py` copy);
- `utils.py` `format_device_code`, `highlight_row` (Device Code row);
- `fusion3.py` `Fusion3.initialize_main_params` (element-kind resolution);
- `fusion3.py` `Fusion3.get_required_elements`;
- `fusion3.py` `Fusion3.get_bom_in_content` (missing-element passes and
  the quantity table, including its raise-on-unparseable-quantity path);
- `fusion3.py` `Fusion3.validate_required_docs` (missing-documents list).
-/

set_option maxRecDepth 20000

/-- Python `needle in hay` (case-sensitive substring test). -/
def strHas (hay needle : String) : Bool :=
  decide (needle.toList <:+: hay.toList)

/-- The characters of `s`, lower-cased character by character: Python `s.lower()`. -/
def lowerChars (s : String) : List Char :=
  s.toList.map Char.toLower

/-- The characters of `s`, upper-cased character by character: Python `s.upper()`. -/
def upperChars (s : String) : List Char :=
  s.toList.map Char.toUpper

/-- Python `needle in hay.lower()` for an (already lower-case) literal `needle`. -/
def strHasLower (hay needle : String) : Bool :=
  decide (needle.toList <:+: lowerChars hay)

/-- Python `needle in hay.upper()` for an (already upper-case) literal `needle`. -/
def strHasUpper (hay needle : String) : Bool :=
  decide (needle.toList <:+: upperChars hay)

/-! ## Classification Resolver: `Utils.validate_part_number` (utils.py, _utils.py)

The source first tests `re.findall(r"\d+(?:[XRN]|SC)\d+", part_number)` for a
match, and separately derives `letter_identifier` as the first of the keys
`"R"`, `"X"`, `"N"`, `"SC"` (dictionary order) whose letter occurs anywhere in
`part_number` (`re.search`).  A match of the digits/letter/digits pattern
exists iff somewhere in the string a digit is immediately followed by one of
the letter groups which is immediately followed by a digit, which is what
`scanLetter`/`hasVariantPattern` decide. -/

/-- `rest` starts with the letter group `L` immediately followed by a digit. -/
def letterThenDigit (L : List Char) (rest : List Char) : Bool :=
  L.isPrefixOf rest &&
    (match rest.drop L.length with
     | e :: _ => e.isDigit
     | [] => false)

/-- Somewhere in `l`, a digit is immediately followed by the letter group `L`
which is immediately followed by a digit (minimal match of
`\d+L\d+`). -/
def scanLetter (L : List Char) : List Char → Bool
  | [] => false
  | d :: rest => (d.isDigit && letterThenDigit L rest) || scanLetter L rest

/-- `re.findall(r"\d+(?:[XRN]|SC)\d+", s)` is non-empty (utils.py line 1006). -/
def hasVariantPattern (l : List Char) : Bool :=
  scanLetter ['X'] l || scanLetter ['R'] l || scanLetter ['N'] l ||
    scanLetter ['S', 'C'] l

/-- The `letter_patterns` scan of `Utils.validate_part_number`: the first of
`R`, `X`, `N`, `SC` (in dictionary order) found anywhere in the part number by
`re.search`. -/
def letterIdentifier (pn : String) : Option String :=
  if strHas pn "R" then some "R"
  else if strHas pn "X" then some "X"
  else if strHas pn "N" then some "N"
  else if strHas pn "SC" then some "SC"
  else none

/-- `Utils.validate_part_number` (utils.py lines 995-1026): returns the
letter identifier when the digits/letter/digits pattern matches somewhere,
`None` otherwise. -/
def validate_part_number (pn : String) : Option String :=
  if hasVariantPattern pn.toList then letterIdentifier pn else none

/-- Modelled from the spec: the part identifier contains a run of digits,
then the letter group `L`, then a run of digits. -/
def SpecPatternLetter (s : String) (L : List Char) : Prop :=
  ∃ a d₁ d₂ b, s.toList = a ++ d₁ ++ L ++ d₂ ++ b ∧ d₁ ≠ [] ∧ d₂ ≠ [] ∧
    (∀ c ∈ d₁, c.isDigit) ∧ (∀ c ∈ d₂, c.isDigit)

/-- Modelled from the spec: some digit-run/letter/digit-run pattern with
letter among X, R, N, SC occurs in the identifier. -/
def SpecPattern (s : String) : Prop :=
  SpecPatternLetter s ['X'] ∨ SpecPatternLetter s ['R'] ∨
    SpecPatternLetter s ['N'] ∨ SpecPatternLetter s ['S', 'C']

/-! ## Classification Resolver: `Fusion3.initialize_main_params` (fusion3.py
lines 64-86).  Only the pure element-kind resolution is embedded: `some`
element name on success, `none` for the raised `ValueError`. -/

/-- Element-kind resolution of `Fusion3.initialize_main_params`. -/
def resolveElementName (typeDropdown titleId : String) : Option String :=
  if typeDropdown = "FLR-25 Bracket" ∨ typeDropdown = "FLC-25 Bracket" then
    if strHasLower titleId "bracket assembly" then some "Bracket" else none
  else if typeDropdown = "FLC-25 Cover" then
    if strHasLower titleId "cover" then some "Cover" else none
  else
    if strHasLower titleId "radar" || strHasLower titleId "camera" then
      some (if strHasLower titleId "radar" then "Radar" else "Camera")
    else none

/-! ## Structural Reconciliation Engine: `Fusion3.get_bom_in_content`
(fusion3.py lines 307-609) and `Fusion3.get_required_elements` (lines
266-306).

A BOM row from the Content tab is the tuple `(title, quantity, description,
id)` produced by `get_titles`.  The engine context collects the instance
attributes set by `initialize_main_params` / `is_AM_bracket` that the method
reads. -/

/-- One observed structural row: the `(title, quantity, description, id)`
tuple of `titles`. -/
structure TitleRow where
  title : String
  quantity : String
  description : String
  id : String
deriving DecidableEq

/-- The `Fusion3` instance attributes read by `get_bom_in_content`. -/
structure BomCtx where
  titleId : String
  typeDropdown : String
  letter : String
  chbxBracket : Bool
  chbxResistor : Bool
  isAmBracket : Bool
  elementName : String
deriving DecidableEq

/-- `Fusion3.get_required_elements` (fusion3.py lines 266-306). -/
def get_required_elements (ctx : BomCtx) : List String :=
  if ctx.elementName = "Radar" then
    if ctx.letter = "X" then
      ["Dataset", "Software", "Boot Software"] ++
        (if ctx.chbxResistor then ["with CAN termination"] else ["wo CAN termination"])
    else if ctx.letter = "R" then
      ["Dataset", "Software", "Boot Software"] ++
        (if ctx.chbxBracket then ["Screw", "Bracket", "Nut"] else []) ++
        (if ctx.chbxResistor then ["with CAN termination"] else ["wo CAN termination"])
    else if ctx.letter = "SC" then
      ["Dataset", "Software", "Boot Software"] ++
        (if ctx.chbxResistor then ["with CAN termination"] else ["wo CAN termination"])
    else []
  else if ctx.elementName = "Camera" then
    if ctx.letter = "X" ∨ ctx.letter = "SC" then
      ["Dataset", "Software", "Boot Software", "Camera"]
    else if ctx.letter = "R" then
      ["Dataset", "Software", "Boot Software", "Camera"]
    else []
  else if ctx.elementName = "Bracket" ∧ ctx.typeDropdown = "FLR-25 Bracket" then
    if ctx.isAmBracket then ["Screw", "Bracket", "Nut"] else ["Bracket", "Nut"]
  else if ctx.elementName = "Bracket" ∧ ctx.typeDropdown = "FLC-25 Bracket" then
    ["Bracket", "Bracket Assembly", "Worm", "Tape"]
  else if ctx.elementName = "Cover" ∧ ctx.typeDropdown = "FLC-25 Cover" then
    ["Cover"]
  else []

/-- First pass of `get_bom_in_content` (lines 316-320): a required element is
missing unless its name occurs (case-sensitively) as a substring of some
observed title. -/
def firstPassMissing (required : List String) (titles : List TitleRow) : List String :=
  required.filter (fun e => !(titles.any (fun r => strHas r.title e)))

/-- `sum(1 for title, ... in titles if "software" in title.lower())`. -/
def countSoftware (titles : List TitleRow) : Nat :=
  (titles.filter (fun r => strHasLower r.title "software")).length

/-- Some software-titled row's description contains "DATASET" or "DATA SET"
(compared upper-cased). -/
def hasSoftwareDatasetDesc (titles : List TitleRow) : Bool :=
  titles.any (fun r => strHasLower r.title "software" &&
    (strHasUpper r.description "DATASET" || strHasUpper r.description "DATA SET"))

/-- Dataset inference (lines 331-350 for radar, 422-441 for camera): un-mark
"Dataset" when at least two software-titled rows exist and one of them has a
dataset description. -/
def datasetStep (titles : List TitleRow) (missing : List String) : List String :=
  if missing.contains "Dataset" && decide (2 ≤ countSoftware titles) &&
      hasSoftwareDatasetDesc titles then
    missing.erase "Dataset"
  else missing

/-- Radar boot-software detection (lines 352-355): title contains "software"
and description contains "boot software". -/
def bootSoftwareFoundRadar (titles : List TitleRow) : Bool :=
  titles.any (fun r => strHasLower r.title "software" &&
    strHasLower r.description "boot software")

/-- Lines 357-362: absence appends "Boot Software" to the missing list,
presence removes a previously flagged "Boot Software". -/
def bootStepRadar (titles : List TitleRow) (missing : List String) : List String :=
  if bootSoftwareFoundRadar titles then missing.erase "Boot Software"
  else missing ++ ["Boot Software"]

/-- `l` begins with `n` decimal digits. -/
def digitsPrefix : Nat → List Char → Bool
  | 0, _ => true
  | _ + 1, [] => false
  | n + 1, c :: rest => c.isDigit && digitsPrefix n rest

/-- `l` begins with the literal `pre` followed by six digits. -/
def litThenSixDigits (pre : List Char) (l : List Char) : Bool :=
  pre.isPrefixOf l && digitsPrefix 6 (l.drop pre.length)

/-- `re.search(pre + r"\d{6}", s)` for a literal `pre`: the pattern matches at
some position. -/
def searchLitSixDigits (pre : List Char) : List Char → Bool
  | [] => false
  | c :: rest => litThenSixDigits pre (c :: rest) || searchLitSixDigits pre rest

/-- Radar software-version check (lines 363-368): some row whose description
does not contain "boot software" has "software" in the title and matches
`VER FU\d{6}` in the (raw) description. -/
def softwareVerFoundRadar (titles : List TitleRow) : Bool :=
  titles.any (fun r => !(strHasLower r.description "boot software") &&
    (strHasLower r.title "software" &&
      searchLitSixDigits "VER FU".toList r.description.toList))

/-- Lines 369-370: append "Software" when no version-matching row exists and
"Software" is not already flagged missing. -/
def swVerStepRadar (titles : List TitleRow) (missing : List String) : List String :=
  if !(softwareVerFoundRadar titles) && !(missing.contains "Software") then
    missing ++ ["Software"]
  else missing

/-- Lines 372-377: radar-titled row with description "with can termination"
and exact id K218450H002 (id compared upper-cased). -/
def canWithFound (titles : List TitleRow) : Bool :=
  titles.any (fun r => strHasLower r.title "radar" &&
    (strHasLower r.description "with can termination" &&
      decide (upperChars r.id = "K218450H002".toList)))

/-- Lines 388-393: radar-titled row with description "wo can termination" and
exact id K188333H002. -/
def canWoFound (titles : List TitleRow) : Bool :=
  titles.any (fun r => strHasLower r.title "radar" &&
    (strHasLower r.description "wo can termination" &&
      decide (upperChars r.id = "K188333H002".toList)))

/-- CAN-termination exact-ID substitution (lines 371-403): the generic
pseudo-requirement is removed from the missing list in both the found and
not-found branches; on failure an ID-qualified entry is appended instead. -/
def canStep (resistor : Bool) (titles : List TitleRow) (missing : List String) :
    List String :=
  if resistor then
    if canWithFound titles then missing.erase "with CAN termination"
    else (missing.erase "with CAN termination") ++
      ["Radar with CAN termination (K218450H002)"]
  else
    if canWoFound titles then missing.erase "wo CAN termination"
    else (missing.erase "wo CAN termination") ++
      ["Radar without CAN termination (K188333H002)"]

/-- Camera-titled row with exact id K188332H000 exists (lines 406-415). -/
def cameraIdFound (titles : List TitleRow) : Bool :=
  titles.any (fun r => strHasLower r.title "camera" &&
    decide (upperChars r.id = "K188332H000".toList))

/-- Python `missing_elements[index] = new` at `index = missing_elements.index(old)`:
replace the first occurrence. -/
def replaceFirst : List String → String → String → List String
  | [], _, _ => []
  | x :: xs, a, b => if x = a then b :: xs else x :: replaceFirst xs a b

/-- Lines 416-421: without an exact-ID camera row, rename a flagged "Camera"
in place to "Camera (K188332H000)", or append that name. -/
def cameraIdStep (titles : List TitleRow) (missing : List String) : List String :=
  if cameraIdFound titles then missing
  else if missing.contains "Camera" then
    replaceFirst missing "Camera" "Camera (K188332H000)"
  else missing ++ ["Camera (K188332H000)"]

/-- Camera boot detection (lines 443-446): description keyword is "boot". -/
def bootSoftwareFoundCamera (titles : List TitleRow) : Bool :=
  titles.any (fun r => strHasLower r.title "software" &&
    strHasLower r.description "boot")

/-- Lines 447-452. -/
def bootStepCamera (titles : List TitleRow) (missing : List String) : List String :=
  if bootSoftwareFoundCamera titles then missing.erase "Boot Software"
  else missing ++ ["Boot Software"]

/-- Camera software-version check (lines 453-458): pattern `NA\d{6}`. -/
def softwareVerFoundCamera (titles : List TitleRow) : Bool :=
  titles.any (fun r => !(strHasLower r.description "boot software") &&
    (strHasLower r.title "software" &&
      searchLitSixDigits "NA".toList r.description.toList))

/-- Lines 459-460. -/
def swVerStepCamera (titles : List TitleRow) (missing : List String) : List String :=
  if !(softwareVerFoundCamera titles) && !(missing.contains "Software") then
    missing ++ ["Software"]
  else missing

/-- Bracket check for FLC-25 Bracket (lines 461-470): a title containing
"bracket" but not "assembly". -/
def bracketFound (titles : List TitleRow) : Bool :=
  titles.any (fun r => strHasLower r.title "bracket" &&
    !(strHasLower r.title "assembly"))

/-- Lines 466-470. -/
def bracketStep (titles : List TitleRow) (missing : List String) : List String :=
  if !(bracketFound titles) && !(missing.contains "Bracket") then
    missing ++ ["Bracket"]
  else missing

/-- The radar branch of the second pass (guard at lines 330-331). -/
def radarPass (ctx : BomCtx) (titles : List TitleRow) (missing : List String) :
    List String :=
  if strHasLower ctx.titleId "radar" = true ∧
      (ctx.letter = "R" ∨ ctx.letter = "SC" ∨ ctx.letter = "X") then
    canStep ctx.chbxResistor titles
      (swVerStepRadar titles (bootStepRadar titles (datasetStep titles missing)))
  else missing

/-- The camera branch of the second pass (guard at lines 404-405). -/
def cameraPass (ctx : BomCtx) (titles : List TitleRow) (missing : List String) :
    List String :=
  if strHasLower ctx.titleId "camera" = true ∧
      (ctx.letter = "R" ∨ ctx.letter = "SC" ∨ ctx.letter = "X") then
    swVerStepCamera titles
      (bootStepCamera titles (datasetStep titles (cameraIdStep titles missing)))
  else missing

/-- The bracket branch of the second pass (guard at line 461). -/
def bracketPass (ctx : BomCtx) (titles : List TitleRow) (missing : List String) :
    List String :=
  if strHasLower ctx.titleId "bracket assembly" = true ∧
      ctx.typeDropdown = "FLC-25 Bracket" then
    bracketStep titles missing
  else missing

/-- The corrected missing-elements list of `get_bom_in_content`: first pass,
then the radar, camera and bracket branches of the second pass, in source
order. -/
def bomMissing (ctx : BomCtx) (titles : List TitleRow) : List String :=
  bracketPass ctx titles (cameraPass ctx titles (radarPass ctx titles
    (firstPassMissing (get_required_elements ctx) titles)))

/-- Digit characters read as a decimal number. -/
def digitsToNat (l : List Char) : Nat :=
  l.foldl (fun n c => n * 10 + (c.toNat - 48)) 0

/-- Python `int(float(q))` on a decimal literal (optional surrounding
whitespace, optional sign, digits with an optional fractional part;
truncation toward zero).  `none` models the `ValueError` raised by `float`
on any other string. -/
def parseDecimal (s : String) : Option Int :=
  let l := ((s.toList.dropWhile Char.isWhitespace).reverse.dropWhile
    Char.isWhitespace).reverse
  let signAndRest : Bool × List Char :=
    match l with
    | '-' :: t => (true, t)
    | '+' :: t => (false, t)
    | t => (false, t)
  let ip := signAndRest.2.takeWhile Char.isDigit
  let val : Int := if signAndRest.1 then -(digitsToNat ip : Int) else (digitsToNat ip : Int)
  match signAndRest.2.dropWhile Char.isDigit with
  | [] => if ip.isEmpty then none else some val
  | '.' :: fp =>
    if fp.all Char.isDigit && !(ip.isEmpty && fp.isEmpty) then some val else none
  | _ => none

/-- One row of the quantity table built by `get_bom_in_content`
(`ID`, `Title`, `Description`, `Quantity`, `Expected_value`). -/
structure BomRow where
  id : String
  title : String
  description : String
  quantity : Int
  expected : Int
deriving DecidableEq

/-- Lines 473-477: `Nut` and `Screw` expect quantity 3, everything else 1. -/
def expectedValueFor (element : String) : Int :=
  if element = "Nut" ∨ element = "Screw" then 3 else 1

/-- Python `needle.lower() in hay.lower()`. -/
def strHasLowerLower (hay needle : String) : Bool :=
  decide (lowerChars needle <:+: lowerChars hay)

/-- Whether an observed row is recorded for a required element (lines
480-502): for FLC-25 Bracket's "Bracket" the title must contain "bracket"
but not "assembly"; otherwise the element name must occur in the title, or —
for the two CAN pseudo-elements — lower-cased in the description. -/
def rowMatches (td element : String) (r : TitleRow) : Bool :=
  if td = "FLC-25 Bracket" ∧ element = "Bracket" then
    strHasLowerLower r.title element && !(strHasLower r.title "assembly")
  else
    strHas r.title element ||
      (decide (element = "wo CAN termination" ∨ element = "with CAN termination") &&
        strHasLowerLower r.description element)

/-- The inner loop of the quantity tabulation for one required element:
`int(float(quantity))` is evaluated for every observed row (before the match
test), so any unparseable quantity raises — modelled by `none`. -/
def tabulateElement (td element : String) : List TitleRow → Option (List BomRow)
  | [] => some []
  | r :: rest =>
    match parseDecimal r.quantity with
    | none => none
    | some q =>
      match tabulateElement td element rest with
      | none => none
      | some rows =>
        if rowMatches td element r then
          some (⟨r.id, r.title, r.description, q, expectedValueFor element⟩ :: rows)
        else some rows

/-- The outer loop over the required elements (lines 472-502). -/
def tabulateAll (td : String) : List String → List TitleRow → Option (List BomRow)
  | [], _ => some []
  | e :: es, titles =>
    match tabulateElement td e titles with
    | none => none
    | some r₁ =>
      match tabulateAll td es titles with
      | none => none
      | some r₂ => some (r₁ ++ r₂)

/-- Lines 503-519: rows whose description names the opposite CAN-termination
variant of the required one are recorded with expected quantity 1. -/
def canCrossRows (required : List String) : List TitleRow → Option (List BomRow)
  | [] => some []
  | r :: rest =>
    if (required.contains "wo CAN termination" &&
          strHasLower r.description "with can termination") ||
       (required.contains "with CAN termination" &&
          strHasLower r.description "wo can termination") then
      match parseDecimal r.quantity with
      | none => none
      | some q =>
        match canCrossRows required rest with
        | none => none
        | some rows => some (⟨r.id, r.title, r.description, q, 1⟩ :: rows)
    else canCrossRows required rest

/-- Lines 520-531: under SC, when "Screw" is not required, the first
screw-titled row is recorded with expected quantity 3. -/
def screwRowSC : List TitleRow → Option (List BomRow)
  | [] => some []
  | r :: rest =>
    if strHasLower r.title "screw" then
      match parseDecimal r.quantity with
      | none => none
      | some q => some [⟨r.id, r.title, r.description, q, 3⟩]
    else screwRowSC rest

/-- Guard of lines 520-521. -/
def screwRows (ctx : BomCtx) (required : List String) (titles : List TitleRow) :
    Option (List BomRow) :=
  if ctx.letter = "SC" ∧ required.contains "Screw" = false then screwRowSC titles
  else some []

/-- `Fusion3.get_bom_in_content` reduced to its diagnostic content: the
corrected missing-elements list and the quantity table.  `none` models the
`ValueError` raised by an unparseable quantity field. -/
def bomResult (ctx : BomCtx) (titles : List TitleRow) :
    Option (List String × List BomRow) :=
  match tabulateAll ctx.typeDropdown (get_required_elements ctx) titles with
  | none => none
  | some rows =>
    match canCrossRows (get_required_elements ctx) titles with
    | none => none
    | some cross =>
      match screwRows ctx (get_required_elements ctx) titles with
      | none => none
      | some screw => some (bomMissing ctx titles, rows ++ cross ++ screw)

/-- `highlight_mismatched_values` (lines 536-541): a table row is rendered as
a mismatch exactly when `Quantity != Expected_value`. -/
def rowMismatch (r : BomRow) : Bool :=
  decide (r.quantity ≠ r.expected)

/-- The conformance verdict of `get_bom_in_content` (lines 564-571): the
SUCCESSFUL message is produced exactly when `missing_elements` is empty. -/
def bomConformant (missing : List String) : Bool :=
  missing.isEmpty

/-! ## Document Reconciliation Engine: `Fusion3.validate_required_docs`
(fusion3.py lines 611-760).

A document record is one entry of the `documents` dictionary: its key (the
composite title) together with the `document_kind` and `lifecycle_state`
fields.  Only the missing-documents list is embedded; the present-documents
table and the printed advisories carry no extra decision content. -/

/-- One observed document record. -/
structure DocRecord where
  title : String
  kind : String
  state : String
deriving DecidableEq

/-- `required_states` (line 685). -/
def acceptedStates : List String :=
  ["Working", "Proposed", "Rejected", "Approved", "Released"]

/-- `required_docs` (lines 625-684), including the optional sub-lists the
source appends to it.  A Bracket element kind with any other family leaves
`required_docs` unbound in the source (a `NameError` path that no caller
reaches); it is modelled as the empty list. -/
def requiredDocs (elementName letter td : String) (isAm : Bool) :
    List String :=
  if elementName = "Radar" then
    if letter = "R" then
      ["Assembly Drawing", "Installation Drawing", "Component Drawing",
       "Service Data"]
    else
      ["Assembly Drawing", "Component Drawing", "Service Data"]
  else if elementName = "Bracket" then
    if td = "FLR-25 Bracket" then
      if isAm then []
      else
        ["Material Specification", "Supplier PPAP", "Order Drawing", "DVP",
         "Feasibility Agreement (FeA) (DMI)", "Mechanical TR Document",
         "Electrical TR Document", "Test Report"]
    else if td = "FLC-25 Bracket" then
      ["Technical Customer Document", "Assembly Drawing",
       "Installation Drawing", "Electrical TR Document", "Process Data Sheet"]
    else []
  else if elementName = "Cover" ∧ td = "FLC-25 Cover" then
    if isAm then ["Component Drawing"]
    else ["Installation Drawing", "Component Drawing"]
  else
    if letter = "R" then
      ["Assembly Drawing", "Installation Drawing", "Service Data"]
    else ["Assembly Drawing", "Service Data"]

/-- The `required_documents` query (lines 688-690): records whose kind is
required and whose lifecycle state is accepted. -/
def filteredDocs (required : List String) (docs : List DocRecord) :
    List DocRecord :=
  docs.filter (fun r => required.contains r.kind &&
    acceptedStates.contains r.state)

/-- `index.str.lower().str.contains("schedule")` for one record. -/
def schedTitled (r : DocRecord) : Bool :=
  strHasLower r.title "schedule"

/-- The Assembly Drawing dual-subtype rule (lines 721-738) applied to the
accepted records of that kind. -/
def adMissing (ads : List DocRecord) : List String :=
  if ads.isEmpty then ["Assembly Drawing Schedule", "Assembly Drawing CAD"]
  else
    (if ads.any schedTitled then [] else ["Assembly Drawing Schedule"]) ++
      (if ads.all schedTitled then ["Assembly Drawing CAD"] else [])

/-- `assembly_docs` (lines 722-724). -/
def assemblyDocs (required : List String) (docs : List DocRecord) :
    List DocRecord :=
  (filteredDocs required docs).filter (fun r => r.kind == "Assembly Drawing")

/-- The per-kind contribution to `missing_docs` in the loop over
`required_docs` (lines 700-741): the Assembly Drawing rule, or the plain
existence check. -/
def missingForKind (filtered : List DocRecord) (kind : String) : List String :=
  if kind = "Assembly Drawing" then
    adMissing (filtered.filter (fun r => r.kind == "Assembly Drawing"))
  else if filtered.any (fun r => r.kind == kind) then []
  else [kind]

/-- The comma-separated components of a composite title (Python
`title.split(",")`). -/
def splitComma : List Char → List (List Char)
  | [] => [[]]
  | ',' :: rest => [] :: splitComma rest
  | c :: rest =>
    match splitComma rest with
    | [] => [[c]]
    | p :: ps => (c :: p) :: ps

/-- Python `str.strip()`: surrounding whitespace removed. -/
def trimChars (l : List Char) : List Char :=
  ((l.dropWhile Char.isWhitespace).reverse.dropWhile Char.isWhitespace).reverse

/-- `[lang.strip() for lang in index.split(",")[1:]]` (line 714). -/
def titleLangs (title : String) : List String :=
  ((splitComma title.toList).drop 1).map (fun p => ⟨trimChars p⟩)

/-- The `service_data_missing_langs["US"]` flag after the document loop
(lines 697, 713-720): cleared when some accepted Service-Data record's
language tokens contain "US" or "EN"; the clearing code runs only when
"Service Data" is among the required kinds. -/
def usMissing (required : List String) (filtered : List DocRecord) : Bool :=
  if required.contains "Service Data" then
    !(filtered.any (fun r => r.kind == "Service Data" &&
      ((titleLangs r.title).contains "US" || (titleLangs r.title).contains "EN")))
  else true

/-- The families subject to the language rule (line 743). -/
def langFamilies : List String := ["FLC-20", "FLR-21", "FLC-25", "FLR-25"]

/-- Lines 743-751: an uncovered US target removes a generic "Service Data"
entry and appends "Service Data - US". -/
def applyLangRule (td : String) (usMiss : Bool) (missing : List String) :
    List String :=
  if langFamilies.contains td && usMiss then
    (missing.erase "Service Data") ++ ["Service Data - US"]
  else missing

/-- Lines 752-757: FLC-25 Bracket renames "Process Data Sheet". -/
def replacePds (td : String) (missing : List String) : List String :=
  if td = "FLC-25 Bracket" then
    missing.map (fun s =>
      if s = "Process Data Sheet" then "Process Data Sheet (BWs)" else s)
  else missing

/-- The full `missing_docs` list of `validate_required_docs` for a nonempty
document set. -/
def docsMissingList (elementName letter td : String) (isAm : Bool)
    (docs : List DocRecord) : List String :=
  replacePds td (applyLangRule td
    (usMissing (requiredDocs elementName letter td isAm)
      (filteredDocs (requiredDocs elementName letter td isAm) docs))
    ((requiredDocs elementName letter td isAm).flatMap
      (missingForKind (filteredDocs (requiredDocs elementName letter td isAm)
        docs))))

/-- `Fusion3.validate_required_docs` reduced to its missing-documents list:
`none` models the early return (lines 622-624) taken when the observed
document dictionary is empty — only an informational message, no missing
findings. -/
def validate_required_docs_missing (elementName letter td : String)
    (isAm : Bool) (docs : List DocRecord) : Option (List String) :=
  if docs.isEmpty then none
  else some (docsMissingList elementName letter td isAm docs)

/-! ## Parameter Comparator: `format_device_code` and the Device Code branch
of `highlight_row` (utils.py lines 16-22 and 36-46).

Python's `" or ".join` and `.split(" or ")` are embedded over character
lists: `joinOrChars` interleaves the separator, `splitOr` scans left to
right for the four-character separator. -/

/-- The characters of the separator `" or "`. -/
def sepOr : List Char := [' ', 'o', 'r', ' ']

/-- Python `s.split(" or ")` over the characters of `s`: a leftmost scan that
closes the current piece at each separator occurrence. -/
def splitOr : List Char → List (List Char)
  | [] => [[]]
  | ' ' :: 'o' :: 'r' :: ' ' :: rest => [] :: splitOr rest
  | c :: rest =>
    match splitOr rest with
    | [] => [[c]]
    | p :: ps => (c :: p) :: ps

/-- Python `" or ".join(pieces)` over character lists. -/
def joinOrChars : List (List Char) → List Char
  | [] => []
  | [p] => p
  | p :: q :: ps => p ++ sepOr ++ joinOrChars (q :: ps)

/-- `" or ".join(expected_value)` as a string. -/
def joinOr (ev : List String) : String := ⟨joinOrChars (ev.map String.toList)⟩

/-- `format_device_code` (utils.py lines 16-22) on a list-valued expected
value: one alternative is returned as-is, several are joined with `" or "`.
`none` models the fall-through branch that returns the empty list itself
(not a string). -/
def format_device_code (ev : List String) : Option String :=
  if ev.length = 1 then some (ev.headD "")
  else if 1 < ev.length then some (joinOr ev)
  else none

/-- The Device Code branch of `highlight_row` (utils.py lines 41-45): the row
is conformant exactly when the actual value is a member of
`expected.split(" or ")`. -/
def device_code_equal (expectedStr actual : String) : Bool :=
  (splitOr expectedStr.toList).contains actual.toList

theorem scanLetter_iff (L : List Char) (l : List Char) :
    scanLetter L l = true ↔
      ∃ a d e b, l = a ++ [d] ++ L ++ [e] ++ b ∧ d.isDigit ∧ e.isDigit := by
  induction l with
  | nil =>
    simp only [scanLetter]
    constructor
    · intro h; exact absurd h (by simp)
    · rintro ⟨a, d, e, b, h, -, -⟩
      exact absurd h (by simp)
  | cons c rest ih =>
    simp only [scanLetter, Bool.or_eq_true, Bool.and_eq_true]
    constructor
    · rintro (⟨hd, hl⟩ | h)
      · simp only [letterThenDigit, Bool.and_eq_true] at hl
        obtain ⟨hpre, hdig⟩ := hl
        rw [List.isPrefixOf_iff_prefix] at hpre
        obtain ⟨t, ht⟩ := hpre
        rw [← ht, List.drop_left] at hdig
        match t, hdig with
        | e :: b, hdig =>
          exact ⟨[], c, e, b, by simp [← ht], hd, hdig⟩
      · obtain ⟨a, d, e, b, h, hd, he⟩ := ih.mp h
        exact ⟨c :: a, d, e, b, by simp [h], hd, he⟩
    · rintro ⟨a, d, e, b, h, hd, he⟩
      match a, h with
      | [], h =>
        left
        simp only [List.nil_append, List.cons_append, List.cons.injEq] at h
        obtain ⟨rfl, hrest⟩ := h
        refine ⟨hd, ?_⟩
        simp only [letterThenDigit, Bool.and_eq_true]
        constructor
        · rw [List.isPrefixOf_iff_prefix, hrest]
          exact ⟨[e] ++ b, by simp⟩
        · rw [hrest, List.append_assoc, List.drop_left]
          simpa using he
      | a₀ :: a', h =>
        right
        simp only [List.cons_append, List.cons.injEq] at h
        exact ih.mpr ⟨a', d, e, b, h.2, hd, he⟩

theorem specPatternLetter_iff_scan (s : String) (L : List Char) :
    SpecPatternLetter s L ↔ scanLetter L s.toList = true := by
  rw [scanLetter_iff]
  constructor
  · rintro ⟨a, d₁, d₂, b, h, h₁, h₂, hd₁, hd₂⟩
    rcases List.eq_nil_or_concat d₁ with rfl | ⟨d₁', d, rfl⟩
    · exact absurd rfl h₁
    · match d₂, h₂ with
      | e :: d₂', _ =>
        refine ⟨a ++ d₁', d, e, d₂' ++ b, ?_, ?_, ?_⟩
        · rw [h]; simp [List.append_assoc, List.concat_eq_append]
        · exact hd₁ d (by simp [List.concat_eq_append])
        · exact hd₂ e (by simp)
  · rintro ⟨a, d, e, b, h, hd, he⟩
    exact ⟨a, [d], [e], b, by simpa using h, by simp, by simp,
      by simpa using hd, by simpa using he⟩

theorem specPattern_iff_hasVariantPattern (s : String) :
    SpecPattern s ↔ hasVariantPattern s.toList = true := by
  unfold SpecPattern hasVariantPattern
  rw [specPatternLetter_iff_scan, specPatternLetter_iff_scan,
    specPatternLetter_iff_scan, specPatternLetter_iff_scan]
  simp [Bool.or_eq_true, or_assoc]

example : validate_part_number "123R456" = some "R" := by decide

example : validate_part_number "1X2R" = some "R" := by decide

example : validate_part_number "ABC" = none := by decide

example : validate_part_number "12SC34" = some "SC" := by decide

theorem scanLetter_letter_occurs {L l : List Char} (h : scanLetter L l = true) :
    L <:+: l := by
  obtain ⟨a, d, e, b, rfl, -, -⟩ := (scanLetter_iff L l).mp h
  exact ⟨a ++ [d], [e] ++ b, by simp [List.append_assoc]⟩

theorem hasVariantPattern_letters {s : String}
    (hv : hasVariantPattern s.toList = true) :
    strHas s "R" = true ∨ strHas s "X" = true ∨ strHas s "N" = true ∨
      strHas s "SC" = true := by
  unfold hasVariantPattern at hv
  simp only [Bool.or_eq_true] at hv
  rcases hv with ((hX | hR) | hN) | hSC
  · exact Or.inr (Or.inl (decide_eq_true (scanLetter_letter_occurs hX)))
  · exact Or.inl (decide_eq_true (scanLetter_letter_occurs hR))
  · exact Or.inr (Or.inr (Or.inl (decide_eq_true (scanLetter_letter_occurs hN))))
  · exact Or.inr (Or.inr (Or.inr (decide_eq_true (scanLetter_letter_occurs hSC))))

theorem letterIdentifier_some {s : String}
    (h : strHas s "R" = true ∨ strHas s "X" = true ∨ strHas s "N" = true ∨
      strHas s "SC" = true) :
    ∃ r, letterIdentifier s = some r := by
  unfold letterIdentifier
  by_cases hR : strHas s "R" = true
  · exact ⟨"R", by simp [hR]⟩
  by_cases hX : strHas s "X" = true
  · exact ⟨"X", by simp [hR, hX]⟩
  by_cases hN : strHas s "N" = true
  · exact ⟨"N", by simp [hR, hX, hN]⟩
  have hSC : strHas s "SC" = true := by tauto
  exact ⟨"SC", by simp [hR, hX, hN, hSC]⟩

/-- C1 (amended): `Utils.validate_part_number` fails (returns `None`) exactly
when no digit-run/letter/digit-run pattern with letter among X, R, N, SC
occurs in the part identifier; when such a pattern exists, the returned
variant is the first of R, X, N, SC (in that fixed priority order) occurring
anywhere in the identifier as a substring — not necessarily the letter inside
the matched pattern. -/
theorem C1_variant_letter_amended (s : String) :
    (validate_part_number s = none ↔ ¬ SpecPattern s) ∧
    (SpecPattern s → validate_part_number s =
      some (if strHas s "R" then "R" else if strHas s "X" then "X"
            else if strHas s "N" then "N" else "SC")) := by
  constructor
  · constructor
    · intro hnone hsp
      have hv := (specPattern_iff_hasVariantPattern s).mp hsp
      obtain ⟨r, hr⟩ := letterIdentifier_some (hasVariantPattern_letters hv)
      unfold validate_part_number at hnone
      rw [if_pos hv, hr] at hnone
      exact Option.noConfusion hnone
    · intro hns
      have hv : ¬ hasVariantPattern s.toList = true :=
        fun h => hns ((specPattern_iff_hasVariantPattern s).mpr h)
      unfold validate_part_number
      rw [if_neg hv]
  · intro hsp
    have hv := (specPattern_iff_hasVariantPattern s).mp hsp
    have hor := hasVariantPattern_letters hv
    unfold validate_part_number letterIdentifier
    rw [if_pos hv]
    by_cases hR : strHas s "R" = true
    · simp [hR]
    by_cases hX : strHas s "X" = true
    · simp [hR, hX]
    by_cases hN : strHas s "N" = true
    · simp [hR, hX, hN]
    have hSC : strHas s "SC" = true := by tauto
    simp [hR, hX, hN, hSC]

/-- C1 witness: a concrete identifier with the pattern, resolved through
`C1_variant_letter_amended`. -/
theorem C1_variant_letter_witness :
    validate_part_number "123R456" = some "R" := by
  have hsp : SpecPattern "123R456" := by
    rw [specPattern_iff_hasVariantPattern]; decide
  rw [(C1_variant_letter_amended "123R456").2 hsp]
  decide

/-- C1 counterexample: in "1X2R" the only digit-run/letter/digit-run pattern
has letter X, yet the resolver returns variant "R" (the priority scan finds
the trailing R first), so the returned variant is not the letter occurring in
the pattern. -/
theorem C1_variant_letter_counterexample :
    validate_part_number "1X2R" = some "R" ∧ SpecPatternLetter "1X2R" ['X'] ∧
      ¬ SpecPatternLetter "1X2R" ['R'] ∧ ¬ SpecPatternLetter "1X2R" ['N'] ∧
      ¬ SpecPatternLetter "1X2R" ['S', 'C'] := by
  refine ⟨by decide, ?_, ?_, ?_, ?_⟩
  · rw [specPatternLetter_iff_scan]; decide
  · rw [specPatternLetter_iff_scan]; decide
  · rw [specPatternLetter_iff_scan]; decide
  · rw [specPatternLetter_iff_scan]; decide

/-- C5 (amended): for a non-bracket, non-cover family, classification
succeeds exactly when the title contains at least one of "radar" / "camera"
(case-insensitive); with neither, a `ValueError` is raised before any
reconciliation output; with both, resolution does not fail — "radar" takes
priority and the element kind is Radar. -/
theorem C5_classification_amended (td titleId : String)
    (h1 : td ≠ "FLR-25 Bracket") (h2 : td ≠ "FLC-25 Bracket")
    (h3 : td ≠ "FLC-25 Cover") :
    ((resolveElementName td titleId).isSome = true ↔
      (strHasLower titleId "radar" = true ∨ strHasLower titleId "camera" = true)) ∧
    (strHasLower titleId "radar" = true →
      resolveElementName td titleId = some "Radar") ∧
    (strHasLower titleId "radar" = false → strHasLower titleId "camera" = true →
      resolveElementName td titleId = some "Camera") := by
  unfold resolveElementName
  rw [if_neg (by tauto), if_neg h3]
  by_cases hr : strHasLower titleId "radar" = true
  · simp [hr]
  · by_cases hc : strHasLower titleId "camera" = true
    · simp [hr, hc]
    · simp [hr, hc]

/-- C5 witness: a radar-only title on a generic family resolves to Radar. -/
theorem C5_classification_witness :
    resolveElementName "FLR-25" "Front Radar Assembly" = some "Radar" := by
  exact (C5_classification_amended "FLR-25" "Front Radar Assembly"
    (by decide) (by decide) (by decide)).2.1 (by decide)

/-- C5 counterexample: a title containing both "radar" and "camera" on a
generic family is claimed to fail resolution, but the code resolves it to
Radar. -/
theorem C5_classification_counterexample :
    strHasLower "Front Radar Camera Assembly" "radar" = true ∧
      strHasLower "Front Radar Camera Assembly" "camera" = true ∧
      resolveElementName "FLR-25" "Front Radar Camera Assembly" = some "Radar" := by
  decide

example : parseDecimal "3" = some 3 := by decide

example : parseDecimal "2.0" = some 2 := by decide

example : parseDecimal " 12.75 " = some 12 := by decide

example : parseDecimal "-4.5" = some (-4) := by decide

example : parseDecimal ".5" = some 0 := by decide

example : parseDecimal "abc" = none := by decide

example : parseDecimal "" = none := by decide

example : parseDecimal "1x" = none := by decide

theorem count_erase_le (a b : String) (l : List String) :
    List.count a (l.erase b) ≤ List.count a l := by
  by_cases h : a = b
  · subst h
    rw [List.count_erase_self]
    omega
  · rw [List.count_erase_of_ne h]

theorem count_datasetStep_le (t : List TitleRow) (m : List String) (a : String) :
    List.count a (datasetStep t m) ≤ List.count a m := by
  unfold datasetStep
  split
  · exact count_erase_le a "Dataset" m
  · exact le_refl _

theorem count_append_single_ne {a b : String} (m : List String) (h : a ≠ b) :
    List.count a (m ++ [b]) = List.count a m := by
  rw [List.count_append, List.count_singleton]
  simp [Ne.symm h]

theorem count_bootStepRadar_ne (t : List TitleRow) (m : List String) {a : String}
    (h : a ≠ "Boot Software") :
    List.count a (bootStepRadar t m) ≤ List.count a m := by
  unfold bootStepRadar
  split
  · exact count_erase_le _ _ _
  · rw [count_append_single_ne m h]

theorem count_bootStepRadar_bs (t : List TitleRow) (m : List String) :
    List.count "Boot Software" (bootStepRadar t m) ≤
      List.count "Boot Software" m + 1 := by
  unfold bootStepRadar
  split
  · exact le_trans (count_erase_le _ _ _) (Nat.le_succ _)
  · rw [List.count_append]
    simp [List.count_singleton]

theorem count_bootStepCamera_ne (t : List TitleRow) (m : List String) {a : String}
    (h : a ≠ "Boot Software") :
    List.count a (bootStepCamera t m) ≤ List.count a m := by
  unfold bootStepCamera
  split
  · exact count_erase_le _ _ _
  · rw [count_append_single_ne m h]

theorem count_swVerStepRadar_ne (t : List TitleRow) (m : List String) {a : String}
    (h : a ≠ "Software") :
    List.count a (swVerStepRadar t m) ≤ List.count a m := by
  unfold swVerStepRadar
  split
  · rw [count_append_single_ne m h]
  · exact le_refl _

theorem count_swVerStepRadar_soft (t : List TitleRow) (m : List String) :
    List.count "Software" (swVerStepRadar t m) ≤
      max (List.count "Software" m) 1 := by
  unfold swVerStepRadar
  split
  · rename_i hcond
    simp only [Bool.and_eq_true, Bool.not_eq_true'] at hcond
    have hC : m.contains "Software" = false := hcond.2
    have hmem : "Software" ∉ m := by
      intro hm
      have ht : m.contains "Software" = true := List.elem_eq_true_of_mem hm
      rw [ht] at hC
      exact Bool.noConfusion hC
    rw [List.count_append, List.count_eq_zero.mpr hmem]
    simp
  · exact le_max_left _ _

theorem count_swVerStepCamera_ne (t : List TitleRow) (m : List String) {a : String}
    (h : a ≠ "Software") :
    List.count a (swVerStepCamera t m) ≤ List.count a m := by
  unfold swVerStepCamera
  split
  · rw [count_append_single_ne m h]
  · exact le_refl _

theorem count_canStep_le_succ (r : Bool) (t : List TitleRow) (m : List String)
    (a : String) :
    List.count a (canStep r t m) ≤ List.count a m + 1 := by
  unfold canStep
  split <;> split
  · exact le_trans (count_erase_le _ _ _) (Nat.le_succ _)
  · rw [List.count_append]
    have := count_erase_le a "with CAN termination" m
    have h2 : List.count a ["Radar with CAN termination (K218450H002)"] ≤ 1 := by
      rw [List.count_singleton]; split <;> omega
    omega
  · exact le_trans (count_erase_le _ _ _) (Nat.le_succ _)
  · rw [List.count_append]
    have := count_erase_le a "wo CAN termination" m
    have h2 : List.count a ["Radar without CAN termination (K188333H002)"] ≤ 1 := by
      rw [List.count_singleton]; split <;> omega
    omega

theorem count_canStep_not_id (r : Bool) (t : List TitleRow) (m : List String)
    {a : String} (h1 : a ≠ "Radar with CAN termination (K218450H002)")
    (h2 : a ≠ "Radar without CAN termination (K188333H002)") :
    List.count a (canStep r t m) ≤ List.count a m := by
  unfold canStep
  split <;> split
  · exact count_erase_le _ _ _
  · rw [count_append_single_ne _ h1]
    exact count_erase_le _ _ _
  · exact count_erase_le _ _ _
  · rw [count_append_single_ne _ h2]
    exact count_erase_le _ _ _

theorem count_canStep_genW (r : Bool) (t : List TitleRow) (m : List String)
    (h1 : List.count "with CAN termination" m ≤ 1)
    (h0 : r = false → List.count "with CAN termination" m = 0) :
    List.count "with CAN termination" (canStep r t m) = 0 := by
  unfold canStep
  cases r with
  | true =>
    rw [if_pos rfl]
    split
    · rw [List.count_erase_self]; omega
    · rw [@count_append_single_ne "with CAN termination"
        "Radar with CAN termination (K218450H002)" _ (by decide),
        List.count_erase_self]
      omega
  | false =>
    have h := h0 rfl
    rw [if_neg (by simp)]
    split
    · rw [List.count_erase_of_ne (by decide)]; exact h
    · rw [@count_append_single_ne "with CAN termination"
        "Radar without CAN termination (K188333H002)" _ (by decide),
        List.count_erase_of_ne (by decide)]
      exact h

theorem count_canStep_genWo (r : Bool) (t : List TitleRow) (m : List String)
    (h1 : List.count "wo CAN termination" m ≤ 1)
    (h0 : r = true → List.count "wo CAN termination" m = 0) :
    List.count "wo CAN termination" (canStep r t m) = 0 := by
  unfold canStep
  cases r with
  | true =>
    have h := h0 rfl
    rw [if_pos rfl]
    split
    · rw [List.count_erase_of_ne (by decide)]; exact h
    · rw [@count_append_single_ne "wo CAN termination"
        "Radar with CAN termination (K218450H002)" _ (by decide),
        List.count_erase_of_ne (by decide)]
      exact h
  | false =>
    rw [if_neg (by simp)]
    split
    · rw [List.count_erase_self]; omega
    · rw [@count_append_single_ne "wo CAN termination"
        "Radar without CAN termination (K188333H002)" _ (by decide),
        List.count_erase_self]
      omega

theorem count_replaceFirst_ne (l : List String) (o n : String) {a : String}
    (h1 : a ≠ o) (h2 : a ≠ n) :
    List.count a (replaceFirst l o n) = List.count a l := by
  induction l with
  | nil => rfl
  | cons x xs ih =>
    unfold replaceFirst
    split
    · rename_i hx
      subst hx
      rw [List.count_cons, List.count_cons]
      simp [Ne.symm h1, Ne.symm h2]
    · rw [List.count_cons, List.count_cons, ih]

theorem count_cameraIdStep_ne (t : List TitleRow) (m : List String) {a : String}
    (h1 : a ≠ "Camera") (h2 : a ≠ "Camera (K188332H000)") :
    List.count a (cameraIdStep t m) ≤ List.count a m := by
  unfold cameraIdStep
  split
  · exact le_refl _
  split
  · rw [count_replaceFirst_ne m _ _ h1 h2]
  · rw [count_append_single_ne m h2]

theorem count_bracketStep_ne (t : List TitleRow) (m : List String) {a : String}
    (h : a ≠ "Bracket") :
    List.count a (bracketStep t m) ≤ List.count a m := by
  unfold bracketStep
  split
  · rw [count_append_single_ne m h]
  · exact le_refl _

theorem count_replaceFirst_old_le (m : List String) :
    List.count "Camera" (replaceFirst m "Camera" "Camera (K188332H000)") ≤
      List.count "Camera" m := by
  induction m with
  | nil => exact le_refl _
  | cons x xs ih =>
    unfold replaceFirst
    split
    · rename_i hx
      subst hx
      rw [List.count_cons_of_ne (by decide), List.count_cons_self]
      omega
    · rename_i hx
      rw [List.count_cons, List.count_cons]
      omega

theorem count_replaceFirst_new_le (m : List String) :
    List.count "Camera (K188332H000)"
        (replaceFirst m "Camera" "Camera (K188332H000)") ≤
      List.count "Camera (K188332H000)" m + 1 := by
  induction m with
  | nil => simp [replaceFirst]
  | cons x xs ih =>
    unfold replaceFirst
    split
    · rename_i hx
      subst hx
      rw [List.count_cons_self, List.count_cons_of_ne (by decide)]
    · rw [List.count_cons, List.count_cons]
      omega

theorem count_cameraIdStep_le_succ (t : List TitleRow) (m : List String)
    (a : String) :
    List.count a (cameraIdStep t m) ≤ List.count a m + 1 := by
  by_cases h1 : a = "Camera"
  · subst h1
    unfold cameraIdStep
    split
    · omega
    split
    · have := count_replaceFirst_old_le m
      omega
    · rw [@count_append_single_ne "Camera" "Camera (K188332H000)" m (by decide)]
      omega
  · by_cases h2 : a = "Camera (K188332H000)"
    · subst h2
      unfold cameraIdStep
      split
      · omega
      split
      · have := count_replaceFirst_new_le m
        omega
      · rw [List.count_append, List.count_singleton]
        simp
    · exact le_trans (count_cameraIdStep_ne t m h1 h2) (Nat.le_succ _)

theorem required_radar_nodup (ctx : BomCtx) (helem : ctx.elementName = "Radar") :
    (get_required_elements ctx).Nodup := by
  unfold get_required_elements
  rw [helem, if_pos rfl]
  split_ifs <;> decide

theorem count_firstPass_le (required : List String) (titles : List TitleRow)
    (a : String) :
    List.count a (firstPassMissing required titles) ≤ List.count a required :=
  (List.filter_sublist required).count_le a

theorem required_subset (ctx : BomCtx) :
    ∀ a ∈ get_required_elements ctx,
      a ∈ ["Dataset", "Software", "Boot Software", "with CAN termination",
        "wo CAN termination", "Screw", "Bracket", "Nut", "Camera",
        "Bracket Assembly", "Worm", "Tape", "Cover"] := by
  intro a ha
  unfold get_required_elements at ha
  split_ifs at ha <;> simp_all <;> tauto

theorem count_required_notin (ctx : BomCtx) (a : String)
    (ha : a ∉ ["Dataset", "Software", "Boot Software", "with CAN termination",
      "wo CAN termination", "Screw", "Bracket", "Nut", "Camera",
      "Bracket Assembly", "Worm", "Tape", "Cover"]) :
    List.count a (get_required_elements ctx) = 0 :=
  List.count_eq_zero.mpr (fun h => ha (required_subset ctx a h))

theorem count_required_genW_zero (ctx : BomCtx)
    (helem : ctx.elementName = "Radar") (hres : ctx.chbxResistor = false) :
    List.count "with CAN termination" (get_required_elements ctx) = 0 := by
  unfold get_required_elements
  rw [helem, if_pos rfl, hres]
  split_ifs <;> simp_all

theorem count_required_genWo_zero (ctx : BomCtx)
    (helem : ctx.elementName = "Radar") (hres : ctx.chbxResistor = true) :
    List.count "wo CAN termination" (get_required_elements ctx) = 0 := by
  unfold get_required_elements
  rw [helem, if_pos rfl, hres]
  split_ifs <;> simp_all

theorem bomMissing_radar (ctx : BomCtx) (titles : List TitleRow)
    (hrad : strHasLower ctx.titleId "radar" = true)
    (hlet : ctx.letter = "R" ∨ ctx.letter = "SC" ∨ ctx.letter = "X") :
    bomMissing ctx titles = bracketPass ctx titles (cameraPass ctx titles
      (canStep ctx.chbxResistor titles (swVerStepRadar titles
        (bootStepRadar titles (datasetStep titles
          (firstPassMissing (get_required_elements ctx) titles)))))) := by
  unfold bomMissing radarPass
  rw [if_pos ⟨hrad, hlet⟩]

theorem count_cameraPass_le (ctx : BomCtx) (titles : List TitleRow)
    (m : List String) {a : String} (h1 : a ≠ "Camera")
    (h2 : a ≠ "Camera (K188332H000)") (h3 : a ≠ "Boot Software")
    (h4 : a ≠ "Software") :
    List.count a (cameraPass ctx titles m) ≤ List.count a m := by
  unfold cameraPass
  split
  · exact le_trans (count_swVerStepCamera_ne _ _ h4)
      (le_trans (count_bootStepCamera_ne _ _ h3)
        (le_trans (count_datasetStep_le _ _ _) (count_cameraIdStep_ne _ _ h1 h2)))
  · exact le_refl _

theorem count_bracketPass_le (ctx : BomCtx) (titles : List TitleRow)
    (m : List String) {a : String} (h : a ≠ "Bracket") :
    List.count a (bracketPass ctx titles m) ≤ List.count a m := by
  unfold bracketPass
  split
  · exact count_bracketStep_ne _ _ h
  · exact le_refl _

/-- C3 (amended): for a radar run (no camera keyword, non-bracket family,
variant R/SC/X), every required element name appears at most once in the
corrected missing-elements list — except "Boot Software", which the second
pass appends without de-duplicating, so it can appear up to twice. -/
theorem C3_missing_multiplicity_amended (ctx : BomCtx) (titles : List TitleRow)
    (hrad : strHasLower ctx.titleId "radar" = true)
    (hcam : strHasLower ctx.titleId "camera" = false)
    (hlet : ctx.letter = "R" ∨ ctx.letter = "SC" ∨ ctx.letter = "X")
    (helem : ctx.elementName = "Radar")
    (htd : ctx.typeDropdown ≠ "FLC-25 Bracket")
    (e : String) :
    List.count e (bomMissing ctx titles) ≤
      if e = "Boot Software" then 2 else 1 := by
  have hnodup := required_radar_nodup ctx helem
  have h0 : ∀ a, List.count a
      (firstPassMissing (get_required_elements ctx) titles) ≤ 1 := fun a =>
    le_trans (count_firstPass_le _ titles a)
      (List.nodup_iff_count_le_one.mp hnodup a)
  rw [bomMissing_radar ctx titles hrad hlet]
  unfold cameraPass
  rw [if_neg (by simp [hcam])]
  unfold bracketPass
  rw [if_neg (fun hc => htd hc.2)]
  set m0 := firstPassMissing (get_required_elements ctx) titles with hm0
  by_cases hbs : e = "Boot Software"
  · subst hbs
    rw [if_pos rfl]
    have c1 := count_canStep_not_id ctx.chbxResistor titles
      (swVerStepRadar titles (bootStepRadar titles (datasetStep titles m0)))
      (a := "Boot Software") (by decide) (by decide)
    have c2 := count_swVerStepRadar_ne titles
      (bootStepRadar titles (datasetStep titles m0))
      (a := "Boot Software") (by decide)
    have c3 := count_bootStepRadar_bs titles (datasetStep titles m0)
    have c4 := count_datasetStep_le titles m0 "Boot Software"
    have c5 := h0 "Boot Software"
    omega
  rw [if_neg hbs]
  by_cases hsw : e = "Software"
  · subst hsw
    have c1 := count_canStep_not_id ctx.chbxResistor titles
      (swVerStepRadar titles (bootStepRadar titles (datasetStep titles m0)))
      (a := "Software") (by decide) (by decide)
    have c2 := count_swVerStepRadar_soft titles
      (bootStepRadar titles (datasetStep titles m0))
    have c3 := count_bootStepRadar_ne titles (datasetStep titles m0)
      (a := "Software") (by decide)
    have c4 := count_datasetStep_le titles m0 "Software"
    have c5 := h0 "Software"
    omega
  by_cases hw : e = "Radar with CAN termination (K218450H002)"
  · subst hw
    have hz : List.count "Radar with CAN termination (K218450H002)" m0 = 0 := by
      have h := count_firstPass_le (get_required_elements ctx) titles
        "Radar with CAN termination (K218450H002)"
      rw [count_required_notin ctx _ (by decide), ← hm0] at h
      omega
    have c1 := count_canStep_le_succ ctx.chbxResistor titles
      (swVerStepRadar titles (bootStepRadar titles (datasetStep titles m0)))
      "Radar with CAN termination (K218450H002)"
    have c2 := count_swVerStepRadar_ne titles
      (bootStepRadar titles (datasetStep titles m0))
      (a := "Radar with CAN termination (K218450H002)") (by decide)
    have c3 := count_bootStepRadar_ne titles (datasetStep titles m0)
      (a := "Radar with CAN termination (K218450H002)") (by decide)
    have c4 := count_datasetStep_le titles m0
      "Radar with CAN termination (K218450H002)"
    omega
  by_cases hwo : e = "Radar without CAN termination (K188333H002)"
  · subst hwo
    have hz : List.count "Radar without CAN termination (K188333H002)" m0 = 0 := by
      have h := count_firstPass_le (get_required_elements ctx) titles
        "Radar without CAN termination (K188333H002)"
      rw [count_required_notin ctx _ (by decide), ← hm0] at h
      omega
    have c1 := count_canStep_le_succ ctx.chbxResistor titles
      (swVerStepRadar titles (bootStepRadar titles (datasetStep titles m0)))
      "Radar without CAN termination (K188333H002)"
    have c2 := count_swVerStepRadar_ne titles
      (bootStepRadar titles (datasetStep titles m0))
      (a := "Radar without CAN termination (K188333H002)") (by decide)
    have c3 := count_bootStepRadar_ne titles (datasetStep titles m0)
      (a := "Radar without CAN termination (K188333H002)") (by decide)
    have c4 := count_datasetStep_le titles m0
      "Radar without CAN termination (K188333H002)"
    omega
  · have c1 := count_canStep_not_id ctx.chbxResistor titles
      (swVerStepRadar titles (bootStepRadar titles (datasetStep titles m0)))
      (a := e) hw hwo
    have c2 := count_swVerStepRadar_ne titles
      (bootStepRadar titles (datasetStep titles m0)) (a := e) hsw
    have c3 := count_bootStepRadar_ne titles (datasetStep titles m0)
      (a := e) hbs
    have c4 := count_datasetStep_le titles m0 e
    have c5 := h0 e
    omega

/-- C3 counterexample: an X-variant radar run with an empty observed element
list puts "Boot Software" into the missing list twice — once from the first
(substring) pass and once appended by the boot-detection pass — although
"Boot Software" is a required element name, so it does not appear exactly
once. -/
theorem C3_missing_multiplicity_counterexample :
    "Boot Software" ∈ get_required_elements
        ⟨"Radar Unit", "FLR-25", "X", false, false, false, "Radar"⟩ ∧
      List.count "Boot Software" (bomMissing
        ⟨"Radar Unit", "FLR-25", "X", false, false, false, "Radar"⟩ []) = 2 := by
  decide

/-- C3 witness: the amended bound applied to a concrete resistor-equipped
R-variant radar run. -/
theorem C3_missing_multiplicity_witness :
    List.count "Boot Software" (bomMissing
      ⟨"Radar Sensor", "FLR-25", "R", false, true, false, "Radar"⟩ []) ≤ 2 := by
  have h := C3_missing_multiplicity_amended
    ⟨"Radar Sensor", "FLR-25", "R", false, true, false, "Radar"⟩ []
    (by decide) (by decide) (Or.inl rfl) rfl (by decide) "Boot Software"
  simpa using h

/-- C10: for a radar product with variant letter R, SC or X, the corrected
missing-elements list never contains the generic pseudo-requirement strings
"with CAN termination" or "wo CAN termination": the required one is erased in
both branches of the CAN exact-ID substitution (replaced on failure by an
ID-qualified entry), and the other one is never required. -/
theorem C10_generic_can_absent (ctx : BomCtx) (titles : List TitleRow)
    (hrad : strHasLower ctx.titleId "radar" = true)
    (hlet : ctx.letter = "R" ∨ ctx.letter = "SC" ∨ ctx.letter = "X")
    (helem : ctx.elementName = "Radar") :
    "with CAN termination" ∉ bomMissing ctx titles ∧
      "wo CAN termination" ∉ bomMissing ctx titles := by
  have hnodup := required_radar_nodup ctx helem
  rw [bomMissing_radar ctx titles hrad hlet]
  set m0 := firstPassMissing (get_required_elements ctx) titles with hm0
  have h0 : ∀ a, List.count a m0 ≤ 1 := by
    intro a
    rw [hm0]
    exact le_trans (count_firstPass_le _ titles a)
      (List.nodup_iff_count_le_one.mp hnodup a)
  set m3 := swVerStepRadar titles (bootStepRadar titles (datasetStep titles m0))
    with hm3
  have hchainW : List.count "with CAN termination" m3 ≤
      List.count "with CAN termination" m0 := by
    rw [hm3]
    exact le_trans (count_swVerStepRadar_ne _ _ (by decide))
      (le_trans (count_bootStepRadar_ne _ _ (by decide))
        (count_datasetStep_le _ _ _))
  have hchainWo : List.count "wo CAN termination" m3 ≤
      List.count "wo CAN termination" m0 := by
    rw [hm3]
    exact le_trans (count_swVerStepRadar_ne _ _ (by decide))
      (le_trans (count_bootStepRadar_ne _ _ (by decide))
        (count_datasetStep_le _ _ _))
  have hW : List.count "with CAN termination"
      (canStep ctx.chbxResistor titles m3) = 0 := by
    apply count_canStep_genW
    · exact le_trans hchainW (h0 _)
    · intro hres
      have hzr := count_required_genW_zero ctx helem hres
      have hz0 : List.count "with CAN termination" m0 = 0 := by
        have h := count_firstPass_le (get_required_elements ctx) titles
          "with CAN termination"
        rw [hzr, ← hm0] at h
        omega
      omega
  have hWo : List.count "wo CAN termination"
      (canStep ctx.chbxResistor titles m3) = 0 := by
    apply count_canStep_genWo
    · exact le_trans hchainWo (h0 _)
    · intro hres
      have hzr := count_required_genWo_zero ctx helem hres
      have hz0 : List.count "wo CAN termination" m0 = 0 := by
        have h := count_firstPass_le (get_required_elements ctx) titles
          "wo CAN termination"
        rw [hzr, ← hm0] at h
        omega
      omega
  constructor
  · rw [← List.count_eq_zero]
    have hc := count_cameraPass_le ctx titles
      (canStep ctx.chbxResistor titles m3)
      (a := "with CAN termination") (by decide) (by decide) (by decide) (by decide)
    have hb := count_bracketPass_le ctx titles
      (cameraPass ctx titles (canStep ctx.chbxResistor titles m3))
      (a := "with CAN termination") (by decide)
    omega
  · rw [← List.count_eq_zero]
    have hc := count_cameraPass_le ctx titles
      (canStep ctx.chbxResistor titles m3)
      (a := "wo CAN termination") (by decide) (by decide) (by decide) (by decide)
    have hb := count_bracketPass_le ctx titles
      (cameraPass ctx titles (canStep ctx.chbxResistor titles m3))
      (a := "wo CAN termination") (by decide)
    omega

/-- C10 witness: an SC-variant radar run with the resistor option and no
observed elements. -/
theorem C10_generic_can_witness :
    "with CAN termination" ∉ bomMissing
        ⟨"Radar Assembly", "FLR-25", "SC", false, true, false, "Radar"⟩ [] ∧
      "wo CAN termination" ∉ bomMissing
        ⟨"Radar Assembly", "FLR-25", "SC", false, true, false, "Radar"⟩ [] :=
  C10_generic_can_absent _ [] (by decide) (Or.inr (Or.inl rfl)) rfl

theorem dataset_mem_required (ctx : BomCtx) (helem : ctx.elementName = "Radar")
    (hlet : ctx.letter = "R" ∨ ctx.letter = "SC" ∨ ctx.letter = "X") :
    "Dataset" ∈ get_required_elements ctx := by
  unfold get_required_elements
  rw [helem, if_pos rfl]
  rcases hlet with hl | hl | hl <;> rw [hl] <;> split_ifs <;> simp_all

theorem strHas_to_strHasLower {hay needle nlow : String}
    (hmap : nlow.toList = needle.toList.map Char.toLower)
    (h : strHas hay needle = true) : strHasLower hay nlow = true := by
  unfold strHas at h
  unfold strHasLower lowerChars
  apply decide_eq_true
  rw [hmap]
  exact List.IsInfix.map Char.toLower (of_decide_eq_true h)

theorem length_filter_mono {α : Type} (p q : α → Bool) (l : List α)
    (h : ∀ x ∈ l, p x = true → q x = true) :
    (l.filter p).length ≤ (l.filter q).length := by
  induction l with
  | nil => exact le_refl _
  | cons x xs ih =>
    have ih2 := ih (fun y hy => h y (List.mem_cons_of_mem x hy))
    rw [List.filter_cons, List.filter_cons]
    by_cases hp : p x = true
    · rw [if_pos hp, if_pos (h x (List.mem_cons_self x xs) hp)]
      simp only [List.length_cons]
      omega
    · rw [if_neg hp]
      split
      · simp only [List.length_cons]
        omega
      · exact ih2

/-- C7: for a radar run with variant R/SC/X, when at least two observed
elements have "Software" in the title, one of those has "DATASET" or
"DATA SET" (case-insensitive) in its description, and no title contains
"Dataset" literally, the dataset requirement is satisfied: "Dataset" is
removed from the missing set by the second pass. -/
theorem C7_dataset_inference (ctx : BomCtx) (titles : List TitleRow)
    (hrad : strHasLower ctx.titleId "radar" = true)
    (hlet : ctx.letter = "R" ∨ ctx.letter = "SC" ∨ ctx.letter = "X")
    (helem : ctx.elementName = "Radar")
    (hsw : 2 ≤ (titles.filter (fun r => strHas r.title "Software")).length)
    (hds : titles.any (fun r => strHas r.title "Software" &&
      (strHasUpper r.description "DATASET" ||
        strHasUpper r.description "DATA SET")) = true)
    (hnot : ∀ r ∈ titles, strHas r.title "Dataset" = false) :
    "Dataset" ∉ bomMissing ctx titles := by
  have hnodup := required_radar_nodup ctx helem
  rw [bomMissing_radar ctx titles hrad hlet]
  set m0 := firstPassMissing (get_required_elements ctx) titles with hm0
  have hany : titles.any (fun r => strHas r.title "Dataset") = false :=
    List.any_eq_false.mpr (fun r hr h => by
      rw [hnot r hr] at h
      exact Bool.noConfusion h)
  have hm0mem : "Dataset" ∈ m0 := by
    rw [hm0]
    exact List.mem_filter.mpr ⟨dataset_mem_required ctx helem hlet,
      by simp [hany]⟩
  have hcount1 : List.count "Dataset" m0 = 1 := by
    have hle : List.count "Dataset" m0 ≤ 1 := by
      rw [hm0]
      exact le_trans (count_firstPass_le _ titles _)
        (List.nodup_iff_count_le_one.mp hnodup _)
    have hpos : 0 < List.count "Dataset" m0 := List.count_pos_iff.mpr hm0mem
    omega
  have hcsw : decide (2 ≤ countSoftware titles) = true := by
    apply decide_eq_true
    unfold countSoftware
    exact le_trans hsw (length_filter_mono _ _ titles
      (fun r hr hp => strHas_to_strHasLower (by decide) hp))
  have hdesc : hasSoftwareDatasetDesc titles = true := by
    unfold hasSoftwareDatasetDesc
    rw [List.any_eq_true]
    obtain ⟨r, hr, hp⟩ := List.any_eq_true.mp hds
    rw [Bool.and_eq_true] at hp
    exact ⟨r, hr, by
      rw [Bool.and_eq_true]
      exact ⟨strHas_to_strHasLower (by decide) hp.1, hp.2⟩⟩
  have hstep : datasetStep titles m0 = m0.erase "Dataset" := by
    unfold datasetStep
    rw [if_pos]
    rw [Bool.and_eq_true, Bool.and_eq_true]
    exact ⟨⟨List.elem_eq_true_of_mem hm0mem, hcsw⟩, hdesc⟩
  have hzero : List.count "Dataset" (datasetStep titles m0) = 0 := by
    rw [hstep, List.count_erase_self, hcount1]
  rw [← List.count_eq_zero]
  have c1 := count_canStep_not_id ctx.chbxResistor titles
    (swVerStepRadar titles (bootStepRadar titles (datasetStep titles m0)))
    (a := "Dataset") (by decide) (by decide)
  have c2 := count_swVerStepRadar_ne titles
    (bootStepRadar titles (datasetStep titles m0)) (a := "Dataset") (by decide)
  have c3 := count_bootStepRadar_ne titles (datasetStep titles m0)
    (a := "Dataset") (by decide)
  have hc := count_cameraPass_le ctx titles
    (canStep ctx.chbxResistor titles (swVerStepRadar titles
      (bootStepRadar titles (datasetStep titles m0))))
    (a := "Dataset") (by decide) (by decide) (by decide) (by decide)
  have hb := count_bracketPass_le ctx titles
    (cameraPass ctx titles (canStep ctx.chbxResistor titles
      (swVerStepRadar titles (bootStepRadar titles (datasetStep titles m0)))))
    (a := "Dataset") (by decide)
  omega

/-- C7 witness: the spec's dataset-inference scenario — "Software A" with a
"DATA SET" description plus "Software B", and no literal "Dataset" title. -/
theorem C7_dataset_inference_witness :
    "Dataset" ∉ bomMissing ⟨"Radar Unit", "FLR-25", "R", false, false, false,
      "Radar"⟩
      [⟨"Software A", "1", "VER FU123456 DATA SET", "i1"⟩,
       ⟨"Software B", "1", "control unit", "i2"⟩] :=
  C7_dataset_inference _ _ (by decide) (Or.inl rfl) rfl (by decide) (by decide)
    (by decide)

theorem tabulateElement_none (td e : String) (titles : List TitleRow)
    (h : ∃ r ∈ titles, parseDecimal r.quantity = none) :
    tabulateElement td e titles = none := by
  induction titles with
  | nil =>
    obtain ⟨r, hr, -⟩ := h
    exact absurd hr (List.not_mem_nil r)
  | cons x xs ih =>
    obtain ⟨r, hr, hn⟩ := h
    rcases List.mem_cons.mp hr with rfl | hr2
    · simp [tabulateElement, hn]
    · cases hq : parseDecimal x.quantity with
      | none => simp [tabulateElement, hq]
      | some q => simp [tabulateElement, hq, ih ⟨r, hr2, hn⟩]

/-- C2 (amended): the structural engine does not recover from an unparseable
quantity: whenever at least one element is required and some observed row's
quantity field is not parseable as a decimal, `int(float(...))` raises a
`ValueError` and the run aborts with no diagnostic result (modelled as
`none`), instead of treating the row as quantity zero. -/
theorem C2_unparseable_quantity_amended (ctx : BomCtx) (titles : List TitleRow)
    (hreq : get_required_elements ctx ≠ [])
    (hbad : ∃ r ∈ titles, parseDecimal r.quantity = none) :
    bomResult ctx titles = none := by
  obtain ⟨e, es, hes⟩ : ∃ e es, get_required_elements ctx = e :: es := by
    cases h : get_required_elements ctx with
    | nil => exact absurd h hreq
    | cons e es => exact ⟨e, es, rfl⟩
  have ht : tabulateAll ctx.typeDropdown (get_required_elements ctx) titles =
      none := by
    rw [hes]
    unfold tabulateAll
    rw [tabulateElement_none ctx.typeDropdown e titles hbad]
  simp only [bomResult]
  rw [ht]

/-- C2 counterexample: a required-element radar run with a row whose quantity
is "N/A" produces no diagnostic result at all — the run aborts — rather than
continuing with that row treated as quantity zero. -/
theorem C2_unparseable_quantity_counterexample :
    parseDecimal "N/A" = none ∧
      bomResult ⟨"Radar Unit", "FLR-25", "X", false, false, false, "Radar"⟩
        [⟨"Radar Sensor", "N/A", "wo CAN termination", "K188333H002"⟩] =
        none := by
  decide

/-- C2 witness: the amended abort behaviour at a concrete camera run. -/
theorem C2_unparseable_quantity_witness :
    bomResult ⟨"Camera Unit", "FLC-25", "X", false, false, false, "Camera"⟩
      [⟨"Camera", "x1", "d", "K188332H000"⟩] = none :=
  C2_unparseable_quantity_amended _ _ (by decide)
    ⟨⟨"Camera", "x1", "d", "K188332H000"⟩, by simp, by decide⟩

/-- C4 (amended): a recorded table row is rendered as a quantity-mismatch iff
its observed quantity differs from its expected quantity; but the overall
conformance verdict depends only on the missing-elements list — it is
non-conformant iff at least one missing finding exists, and quantity
mismatches do not affect it, so a run with no missing elements and a quantity
mismatch is still reported conformant. -/
theorem C4_quantity_law_amended (ctx : BomCtx) (titles : List TitleRow)
    (m : List String) (rows : List BomRow)
    (h : bomResult ctx titles = some (m, rows)) :
    m = bomMissing ctx titles ∧ (bomConformant m = true ↔ m = []) ∧
      ∀ r ∈ rows, (rowMismatch r = true ↔ r.quantity ≠ r.expected) := by
  refine ⟨?_, List.isEmpty_iff, fun r hr => decide_eq_true_iff⟩
  unfold bomResult at h
  split at h
  · exact Option.noConfusion h
  split at h
  · exact Option.noConfusion h
  split at h
  · exact Option.noConfusion h
  · rw [Option.some.injEq, Prod.mk.injEq] at h
    exact h.1.symm

/-- C4 counterexample: a run whose missing list is empty but whose quantity
table contains a mismatched row (observed 2 vs expected 1) is reported
conformant, refuting "the verdict is false iff at least one missing or
mismatch finding exists". -/
theorem C4_quantity_law_counterexample :
    (bomResult ⟨"Radar Unit", "FLR-25", "X", false, false, false, "Radar"⟩
        [⟨"Radar Sensor", "1", "wo CAN termination unit", "K188333H002"⟩,
         ⟨"Software Main", "2", "VER FU123456", "a"⟩,
         ⟨"Boot Software", "1", "Boot Software pkg", "b"⟩,
         ⟨"Dataset D", "1", "x", "c"⟩]).map
      (fun p => (p.1, bomConformant p.1, p.2.any rowMismatch)) =
      some ([], true, true) := by
  decide

/-- C4 witness: the amended law applied to the same concrete run. -/
theorem C4_quantity_law_witness :
    ([] : List String) = bomMissing
      ⟨"Radar Unit", "FLR-25", "X", false, false, false, "Radar"⟩
      [⟨"Radar Sensor", "1", "wo CAN termination unit", "K188333H002"⟩,
       ⟨"Software Main", "2", "VER FU123456", "a"⟩,
       ⟨"Boot Software", "1", "Boot Software pkg", "b"⟩,
       ⟨"Dataset D", "1", "x", "c"⟩] :=
  (C4_quantity_law_amended _ _ []
    [⟨"c", "Dataset D", "x", 1, 1⟩,
     ⟨"a", "Software Main", "VER FU123456", 2, 1⟩,
     ⟨"b", "Boot Software", "Boot Software pkg", 1, 1⟩,
     ⟨"b", "Boot Software", "Boot Software pkg", 1, 1⟩,
     ⟨"K188333H002", "Radar Sensor", "wo CAN termination unit", 1, 1⟩]
    (by decide)).1

example : titleLangs "DocX, FR" = ["FR"] := by decide

example : titleLangs "Doc, US, American English, 008" =
    ["US", "American English", "008"] := by decide

theorem mem_missingForKind_other (filtered : List DocRecord) (kind : String)
    (hk : kind ≠ "Assembly Drawing") {a : String}
    (ha : a ∈ missingForKind filtered kind) : a = kind := by
  unfold missingForKind at ha
  rw [if_neg hk] at ha
  split at ha
  · exact absurd ha (List.not_mem_nil a)
  · simpa using ha

theorem adMissing_subset (ads : List DocRecord) :
    ∀ a ∈ adMissing ads,
      a = "Assembly Drawing Schedule" ∨ a = "Assembly Drawing CAD" := by
  intro a ha
  unfold adMissing at ha
  split at ha
  · simpa using ha
  · rw [List.mem_append] at ha
    rcases ha with h | h
    · split at h
      · exact absurd h (List.not_mem_nil a)
      · exact Or.inl (by simpa using h)
    · split at h
      · exact Or.inr (by simpa using h)
      · exact absurd h (List.not_mem_nil a)

theorem mem_applyLangRule (td : String) (us : Bool) (m : List String)
    {a : String} (h1 : a ≠ "Service Data - US") (h2 : a ≠ "Service Data") :
    (a ∈ applyLangRule td us m) ↔ a ∈ m := by
  unfold applyLangRule
  split
  · rw [List.mem_append, List.mem_erase_of_ne h2]
    simp [h1]
  · exact Iff.rfl

theorem radarR_requiredDocs :
    requiredDocs "Radar" "R" "FLR-25" false =
      ["Assembly Drawing", "Installation Drawing", "Component Drawing",
       "Service Data"] := by
  decide

theorem mem_docsMissingList_radarR (docs : List DocRecord) (a : String)
    (h1 : a ≠ "Service Data - US") (h2 : a ≠ "Service Data")
    (h3 : a ≠ "Installation Drawing") (h4 : a ≠ "Component Drawing") :
    (a ∈ docsMissingList "Radar" "R" "FLR-25" false docs) ↔
      a ∈ adMissing (assemblyDocs (requiredDocs "Radar" "R" "FLR-25" false)
        docs) := by
  unfold docsMissingList replacePds assemblyDocs
  rw [radarR_requiredDocs, if_neg (by decide), mem_applyLangRule _ _ _ h1 h2]
  have hAD : missingForKind
      (filteredDocs ["Assembly Drawing", "Installation Drawing",
        "Component Drawing", "Service Data"] docs) "Assembly Drawing" =
      adMissing ((filteredDocs ["Assembly Drawing", "Installation Drawing",
        "Component Drawing", "Service Data"] docs).filter
          (fun r => r.kind == "Assembly Drawing")) := by
    unfold missingForKind
    rw [if_pos rfl]
  simp only [List.flatMap_cons, List.flatMap_nil, List.append_nil,
    List.mem_append, hAD]
  constructor
  · rintro (h | h | h | h)
    · exact h
    · exact absurd (mem_missingForKind_other _ _ (by decide) h) h3
    · exact absurd (mem_missingForKind_other _ _ (by decide) h) h4
    · exact absurd (mem_missingForKind_other _ _ (by decide) h) h2
  · exact fun h => Or.inl h

/-- C6 (amended): provided the observed document set is nonempty, the
Assembly Drawing kind behaves as claimed — with no accepted records of that
kind both "Assembly Drawing Schedule" and "Assembly Drawing CAD" are
reported missing; with records, the Schedule sub-requirement is missing iff
no record title contains "schedule" and the CAD sub-requirement is missing
iff every record title contains "schedule".  (An entirely empty document
dictionary short-circuits with only an informational message and no missing
findings.) -/
theorem C6_assembly_drawing_amended (docs : List DocRecord) (hne : docs ≠ []) :
    ∃ m, validate_required_docs_missing "Radar" "R" "FLR-25" false docs =
        some m ∧
      (assemblyDocs (requiredDocs "Radar" "R" "FLR-25" false) docs = [] →
        "Assembly Drawing Schedule" ∈ m ∧ "Assembly Drawing CAD" ∈ m) ∧
      (assemblyDocs (requiredDocs "Radar" "R" "FLR-25" false) docs ≠ [] →
        (("Assembly Drawing Schedule" ∈ m ↔
          (assemblyDocs (requiredDocs "Radar" "R" "FLR-25" false) docs).any
            schedTitled = false) ∧
         ("Assembly Drawing CAD" ∈ m ↔
          (assemblyDocs (requiredDocs "Radar" "R" "FLR-25" false) docs).all
            schedTitled = true))) := by
  refine ⟨docsMissingList "Radar" "R" "FLR-25" false docs, ?_, ?_, ?_⟩
  · unfold validate_required_docs_missing
    rw [if_neg (fun h => hne (List.isEmpty_iff.mp h))]
  · intro hads
    constructor
    · rw [mem_docsMissingList_radarR docs _ (by decide) (by decide) (by decide)
        (by decide), hads]
      decide
    · rw [mem_docsMissingList_radarR docs _ (by decide) (by decide) (by decide)
        (by decide), hads]
      decide
  · intro hads
    have hne' : ¬ ((assemblyDocs (requiredDocs "Radar" "R" "FLR-25" false)
        docs).isEmpty = true) := fun h => hads (List.isEmpty_iff.mp h)
    constructor
    · rw [mem_docsMissingList_radarR docs _ (by decide) (by decide) (by decide)
        (by decide)]
      unfold adMissing
      rw [if_neg hne', List.mem_append]
      constructor
      · rintro (h | h)
        · split at h
          · exact absurd h (List.not_mem_nil _)
          · rename_i hany
            exact Bool.not_eq_true _ ▸ (Bool.eq_false_iff.mpr hany)
        · split at h
          · exact absurd h (by decide)
          · exact absurd h (List.not_mem_nil _)
      · intro hany
        left
        rw [if_neg (by rw [hany]; exact Bool.false_ne_true)]
        decide
    · rw [mem_docsMissingList_radarR docs _ (by decide) (by decide) (by decide)
        (by decide)]
      unfold adMissing
      rw [if_neg hne', List.mem_append]
      constructor
      · rintro (h | h)
        · split at h
          · exact absurd h (List.not_mem_nil _)
          · exact absurd h (by decide)
        · split at h
          · rename_i hall
            exact hall
          · exact absurd h (List.not_mem_nil _)
      · intro hall
        right
        rw [if_pos hall]
        decide

/-- C6 counterexample: with an entirely empty observed document dictionary —
so in particular no Assembly Drawing record exists — the engine returns early
with no missing-documents list at all, and neither "Assembly Drawing
Schedule" nor "Assembly Drawing CAD" is reported missing. -/
theorem C6_assembly_drawing_counterexample :
    validate_required_docs_missing "Radar" "R" "FLR-25" false [] = none := by
  decide

/-- C6 witness: one accepted Assembly Drawing record without "schedule" in
its title — the Schedule sub-requirement is missing, the CAD one is not. -/
theorem C6_assembly_drawing_witness :
    ∃ m, validate_required_docs_missing "Radar" "R" "FLR-25" false
        [⟨"Drawing X", "Assembly Drawing", "Released"⟩] = some m ∧
      "Assembly Drawing Schedule" ∈ m ∧ "Assembly Drawing CAD" ∉ m := by
  obtain ⟨m, hm, -, hx⟩ := C6_assembly_drawing_amended
    [⟨"Drawing X", "Assembly Drawing", "Released"⟩] (by simp)
  obtain ⟨hs, hc⟩ := hx (by decide)
  refine ⟨m, hm, hs.mpr (by decide), fun hmem => ?_⟩
  exact absurd (hc.mp hmem) (by decide)

/-- C8: for a run requiring Service Data on a language-rule family, if
accepted Service-Data records exist but none of their comma-separated
language tokens contains "US" or the accepted synonym "EN", the missing list
reports "Service Data - US" and contains no generic "Service Data" entry. -/
theorem C8_service_data_language (docs : List DocRecord)
    (hex : ∃ r ∈ docs, r.kind = "Service Data" ∧ r.state ∈ acceptedStates)
    (hcov : ∀ r ∈ docs, r.kind = "Service Data" → r.state ∈ acceptedStates →
      ((titleLangs r.title).contains "US" = false ∧
       (titleLangs r.title).contains "EN" = false)) :
    ∃ m, validate_required_docs_missing "Radar" "R" "FLR-25" false docs =
        some m ∧ "Service Data - US" ∈ m ∧ "Service Data" ∉ m := by
  obtain ⟨r0, hr0, hk0, hs0⟩ := hex
  have hne : docs ≠ [] := by
    intro h
    subst h
    exact absurd hr0 (List.not_mem_nil r0)
  have hmemF : r0 ∈ filteredDocs ["Assembly Drawing", "Installation Drawing",
      "Component Drawing", "Service Data"] docs := by
    apply List.mem_filter.mpr
    refine ⟨hr0, ?_⟩
    rw [Bool.and_eq_true]
    constructor
    · rw [hk0]; decide
    · exact List.elem_eq_true_of_mem hs0
  have husm : usMissing ["Assembly Drawing", "Installation Drawing",
      "Component Drawing", "Service Data"]
      (filteredDocs ["Assembly Drawing", "Installation Drawing",
        "Component Drawing", "Service Data"] docs) = true := by
    unfold usMissing
    rw [if_pos (by decide)]
    rw [Bool.not_eq_true', List.any_eq_false]
    intro r hrF hp
    rw [Bool.and_eq_true] at hp
    obtain ⟨hkind, hlang⟩ := hp
    have hrk : r.kind = "Service Data" := by
      have := hkind
      rwa [beq_iff_eq] at this
    obtain ⟨hrd, hpred⟩ := List.mem_filter.mp hrF
    rw [Bool.and_eq_true] at hpred
    have hstate : r.state ∈ acceptedStates := List.elem_iff.mp hpred.2
    obtain ⟨hus, hen⟩ := hcov r hrd hrk hstate
    rw [hus, hen] at hlang
    exact Bool.noConfusion hlang
  have hSDkind : missingForKind (filteredDocs ["Assembly Drawing",
      "Installation Drawing", "Component Drawing", "Service Data"] docs)
      "Service Data" = [] := by
    unfold missingForKind
    rw [if_neg (by decide), if_pos]
    rw [List.any_eq_true]
    exact ⟨r0, hmemF, by rw [beq_iff_eq]; exact hk0⟩
  have hSDnot : "Service Data" ∉
      (["Assembly Drawing", "Installation Drawing", "Component Drawing",
        "Service Data"] : List String).flatMap
        (missingForKind (filteredDocs ["Assembly Drawing",
          "Installation Drawing", "Component Drawing", "Service Data"]
          docs)) := by
    simp only [List.flatMap_cons, List.flatMap_nil, List.append_nil,
      List.mem_append]
    rintro (h | h | h | h)
    · have := adMissing_subset _ _ (by
        have hAD : missingForKind (filteredDocs ["Assembly Drawing",
            "Installation Drawing", "Component Drawing", "Service Data"] docs)
            "Assembly Drawing" = adMissing ((filteredDocs ["Assembly Drawing",
              "Installation Drawing", "Component Drawing", "Service Data"]
              docs).filter (fun r => r.kind == "Assembly Drawing")) := by
          unfold missingForKind
          rw [if_pos rfl]
        rw [hAD] at h
        exact h)
      rcases this with h2 | h2 <;> exact absurd h2 (by decide)
    · exact absurd (mem_missingForKind_other _ _ (by decide) h) (by decide)
    · exact absurd (mem_missingForKind_other _ _ (by decide) h) (by decide)
    · rw [hSDkind] at h
      exact absurd h (List.not_mem_nil _)
  refine ⟨docsMissingList "Radar" "R" "FLR-25" false docs, ?_, ?_, ?_⟩
  · unfold validate_required_docs_missing
    rw [if_neg (fun h => hne (List.isEmpty_iff.mp h))]
  · unfold docsMissingList replacePds applyLangRule
    rw [radarR_requiredDocs, if_neg (by decide),
      if_pos (by rw [Bool.and_eq_true]; exact ⟨by decide, husm⟩)]
    exact List.mem_append.mpr (Or.inr (by decide))
  · unfold docsMissingList replacePds applyLangRule
    rw [radarR_requiredDocs, if_neg (by decide),
      if_pos (by rw [Bool.and_eq_true]; exact ⟨by decide, husm⟩)]
    intro h
    rcases List.mem_append.mp h with h2 | h2
    · exact hSDnot (List.mem_of_mem_erase h2)
    · exact absurd h2 (by decide)

/-- C8 witness: the spec's language-coverage scenario — a single accepted
Service-Data record titled "DocX, FR". -/
theorem C8_service_data_language_witness :
    ∃ m, validate_required_docs_missing "Radar" "R" "FLR-25" false
        [⟨"DocX, FR", "Service Data", "Released"⟩] = some m ∧
      "Service Data - US" ∈ m ∧ "Service Data" ∉ m :=
  C8_service_data_language _
    ⟨⟨"DocX, FR", "Service Data", "Released"⟩, by simp, rfl, by decide⟩
    (by decide)

example : format_device_code ["21024", "50017"] = some "21024 or 50017" := by
  decide

example : device_code_equal "21024 or 50017" "50017" = true := by decide

example : device_code_equal "21024 or 50017" "99999" = false := by decide

theorem splitOr_sep (r : List Char) :
    splitOr (' ' :: 'o' :: 'r' :: ' ' :: r) = [] :: splitOr r := rfl

theorem splitOr_other_cons {c : Char} (hc : c ≠ ' ') (rest : List Char) :
    splitOr (c :: rest) =
      match splitOr rest with
      | [] => [[c]]
      | p :: ps => (c :: p) :: ps := by
  rw [splitOr.eq_def]
  split
  · rename_i heq
    exact absurd heq (by simp)
  · rename_i heq
    rw [List.cons.injEq] at heq
    exact absurd heq.1 hc
  · rename_i heq
    rw [List.cons.injEq] at heq
    rw [← heq.1, ← heq.2]

theorem splitOr_digits_sep (p r : List Char) (hp : ∀ c ∈ p, c.isDigit = true) :
    splitOr (p ++ sepOr ++ r) = p :: splitOr r := by
  induction p with
  | nil => simpa [sepOr] using splitOr_sep r
  | cons c p' ih =>
    have hd := hp c (by simp)
    have hc : c ≠ ' ' := by
      intro h
      rw [h] at hd
      exact Bool.noConfusion hd
    have ih2 := ih (fun x hx => hp x (by simp [hx]))
    rw [List.cons_append, List.cons_append, splitOr_other_cons hc, ih2]

theorem splitOr_digits (p : List Char) (hne : p ≠ [])
    (hp : ∀ c ∈ p, c.isDigit = true) :
    splitOr p = [p] := by
  induction p with
  | nil => contradiction
  | cons c p' ih =>
    have hd := hp c (by simp)
    have hc : c ≠ ' ' := by
      intro h
      rw [h] at hd
      exact Bool.noConfusion hd
    rw [splitOr_other_cons hc]
    cases p' with
    | nil => rfl
    | cons q rest =>
      rw [ih (by simp) (fun x hx => hp x (by simp [hx]))]

theorem splitOr_joinOrChars (ps : List (List Char)) (hne : ps ≠ [])
    (hdig : ∀ p ∈ ps, p ≠ [] ∧ ∀ c ∈ p, c.isDigit = true) :
    splitOr (joinOrChars ps) = ps := by
  induction ps with
  | nil => contradiction
  | cons p qs ih =>
    cases qs with
    | nil =>
      have h := hdig p (by simp)
      simpa [joinOrChars] using splitOr_digits p h.1 h.2
    | cons q rs =>
      have hp := hdig p (by simp)
      rw [show joinOrChars (p :: q :: rs) = p ++ sepOr ++ joinOrChars (q :: rs)
          from rfl]
      rw [splitOr_digits_sep p _ hp.2,
        ih (by simp) (fun x hx => hdig x (by simp [hx]))]

theorem toList_inj {a b : String} (h : a.toList = b.toList) : a = b := by
  cases a
  cases b
  exact congrArg String.mk h

theorem beq_toList (a b : String) : (a.toList == b.toList) = (a == b) := by
  by_cases h : a = b
  · subst h
    simp
  · rw [beq_eq_false_iff_ne.mpr (fun hc => h (toList_inj hc)),
      beq_eq_false_iff_ne.mpr h]

theorem contains_map_toList (alts : List String) (obs : String) :
    (alts.map String.toList).contains obs.toList = alts.contains obs := by
  induction alts with
  | nil => rfl
  | cons a l ih =>
    rw [List.map_cons, List.contains_cons, List.contains_cons, ih, beq_toList]

/-- C9: for a device-code field whose reference value is a non-empty list of
alternatives (each a non-empty digit string, like `["21024", "50017"]`), the
formatted expected value exists and the row's equality flag holds exactly
when the observed value is a member of the alternatives list. -/
theorem C9_device_code_alternatives (alts : List String) (obs : String)
    (hne : alts ≠ [])
    (hdig : ∀ a ∈ alts, a.toList ≠ [] ∧ ∀ c ∈ a.toList, c.isDigit = true) :
    ∃ f, format_device_code alts = some f ∧
      device_code_equal f obs = alts.contains obs := by
  match alts, hne with
  | [a], _ =>
    refine ⟨a, by simp [format_device_code], ?_⟩
    unfold device_code_equal
    have h := hdig a (by simp)
    rw [splitOr_digits a.toList h.1 h.2]
    exact contains_map_toList [a] obs
  | a :: b :: rest, _ =>
    have hsplit : splitOr (joinOrChars ((a :: b :: rest).map String.toList)) =
        (a :: b :: rest).map String.toList :=
      splitOr_joinOrChars _ (by simp) (by
        intro p hp
        obtain ⟨x, hx, rfl⟩ := List.mem_map.mp hp
        exact hdig x hx)
    refine ⟨joinOr (a :: b :: rest), ?_, ?_⟩
    · unfold format_device_code
      rw [if_neg (by simp only [List.length_cons]; omega),
        if_pos (by simp only [List.length_cons]; omega)]
    · unfold device_code_equal joinOr
      rw [show (String.mk (joinOrChars ((a :: b :: rest).map
          String.toList))).toList
          = joinOrChars ((a :: b :: rest).map String.toList) from rfl]
      rw [hsplit]
      exact contains_map_toList _ obs

/-- C9 witness: the spec's scenario `["21024", "50017"]` — observed "50017"
is marked equal and observed "99999" non-conformant. -/
theorem C9_device_code_alternatives_witness :
    ∃ f, format_device_code ["21024", "50017"] = some f ∧
      device_code_equal f "50017" = true ∧
      device_code_equal f "99999" = false := by
  obtain ⟨f, hf, he⟩ := C9_device_code_alternatives ["21024", "50017"] "50017"
    (by simp) (by decide)
  obtain ⟨f2, hf2, he2⟩ := C9_device_code_alternatives ["21024", "50017"]
    "99999" (by simp) (by decide)
  rw [hf, Option.some_inj] at hf2
  refine ⟨f, hf, ?_, ?_⟩
  · rw [he]; decide
  · rw [← hf2] at he2
    rw [he2]
    decide
